import Mathlib

/-!
Verification of the approval-gated query pipeline of `MongoDBSQLAgent`
(`src/backend/app/mongodbAgent.py`) and of the `store_question_sql_pair`
endpoint (`src/backend/app/api.py`) of the data-analyst-agent repository.

The external collaborators (Vanna generator, BigQuery executor, sentence
embedder, the MongoDB Atlas vector-search aggregation, the success/failure of
a `replace_one` write, pandas rendering, and the wall clock) are modelled as
an environment of function parameters returning `Except`; the MongoDB
collection is modelled as an explicit list of documents, threaded through
every operation.  All in-repository logic (tokenisation, regex fallback,
example filtering, the approval gate, the md5-derived `_id`, upsert
semantics, error flow) is translated directly from the source.
-/

/-! ## MD5 (model of `hashlib.md5(question.encode()).hexdigest()`)

`store_query_pair` keys each document by the md5 hex digest of the UTF-8
encoding of the question.  We model md5 itself (RFC 1321) over byte lists,
with 32-bit words as `Nat` reduced `% 2^32`. -/

/-- UTF-8 encoding of a single character (what Python's `str.encode()` does). -/
def utf8EncodeChar (c : Char) : List Nat :=
  let n := c.toNat
  if n < 0x80 then [n]
  else if n < 0x800 then [0xC0 ||| (n >>> 6), 0x80 ||| (n &&& 0x3F)]
  else if n < 0x10000 then
    [0xE0 ||| (n >>> 12), 0x80 ||| ((n >>> 6) &&& 0x3F), 0x80 ||| (n &&& 0x3F)]
  else
    [0xF0 ||| (n >>> 18), 0x80 ||| ((n >>> 12) &&& 0x3F),
     0x80 ||| ((n >>> 6) &&& 0x3F), 0x80 ||| (n &&& 0x3F)]

/-- UTF-8 bytes of a string, i.e. Python's `question.encode()`. -/
def utf8Bytes (s : String) : List Nat :=
  (s.data.map utf8EncodeChar).flatten

/-- The 64 md5 sine-derived constants K[i]. -/
def md5K (i : Nat) : Nat :=
  [0xd76aa478, 0xe8c7b756, 0x242070db, 0xc1bdceee,
   0xf57c0faf, 0x4787c62a, 0xa8304613, 0xfd469501,
   0x698098d8, 0x8b44f7af, 0xffff5bb1, 0x895cd7be,
   0x6b901122, 0xfd987193, 0xa679438e, 0x49b40821,
   0xf61e2562, 0xc040b340, 0x265e5a51, 0xe9b6c7aa,
   0xd62f105d, 0x02441453, 0xd8a1e681, 0xe7d3fbc8,
   0x21e1cde6, 0xc33707d6, 0xf4d50d87, 0x455a14ed,
   0xa9e3e905, 0xfcefa3f8, 0x676f02d9, 0x8d2a4c8a,
   0xfffa3942, 0x8771f681, 0x6d9d6122, 0xfde5380c,
   0xa4beea44, 0x4bdecfa9, 0xf6bb4b60, 0xbebfbc70,
   0x289b7ec6, 0xeaa127fa, 0xd4ef3085, 0x04881d05,
   0xd9d4d039, 0xe6db99e5, 0x1fa27cf8, 0xc4ac5665,
   0xf4292244, 0x432aff97, 0xab9423a7, 0xfc93a039,
   0x655b59c3, 0x8f0ccc92, 0xffeff47d, 0x85845dd1,
   0x6fa87e4f, 0xfe2ce6e0, 0xa3014314, 0x4e0811a1,
   0xf7537e82, 0xbd3af235, 0x2ad7d2bb, 0xeb86d391].getD i 0

/-- md5 per-round left-rotation amounts s[i]. -/
def md5S (i : Nat) : Nat :=
  if i < 16 then [7, 12, 17, 22].getD (i % 4) 0
  else if i < 32 then [5, 9, 14, 20].getD (i % 4) 0
  else if i < 48 then [4, 11, 16, 23].getD (i % 4) 0
  else [6, 10, 15, 21].getD (i % 4) 0

/-- md5 round function F/G/H/I, chosen by round index. 32-bit complement of
`x` is `0xFFFFFFFF - x`. -/
def md5F (i b c d : Nat) : Nat :=
  if i < 16 then (b &&& c) ||| ((0xFFFFFFFF - b) &&& d)
  else if i < 32 then (d &&& b) ||| ((0xFFFFFFFF - d) &&& c)
  else if i < 48 then b ^^^ c ^^^ d
  else c ^^^ (b ||| (0xFFFFFFFF - d))

/-- md5 message-word index g(i) per round. -/
def md5g (i : Nat) : Nat :=
  if i < 16 then i
  else if i < 32 then (5 * i + 1) % 16
  else if i < 48 then (3 * i + 5) % 16
  else (7 * i) % 16

/-- 32-bit left rotation on `Nat` (inputs `< 2^32`). -/
def rotl32 (x c : Nat) : Nat :=
  ((x <<< c) % 4294967296) ||| (x >>> (32 - c))

/-- One step of the md5 compression loop on state (a, b, c, d). -/
def md5Step (M : Nat → Nat) (st : Nat × Nat × Nat × Nat) (i : Nat) :
    Nat × Nat × Nat × Nat :=
  let a := st.1
  let b := st.2.1
  let c := st.2.2.1
  let d := st.2.2.2
  let f := (md5F i b c d + a + md5K i + M (md5g i)) % 4294967296
  (d, (b + rotl32 f (md5S i)) % 4294967296, b, c)

/-- Process one 64-byte chunk: little-endian word decode, 64 steps, add back. -/
def md5Chunk (st : Nat × Nat × Nat × Nat) (chunk : List Nat) :
    Nat × Nat × Nat × Nat :=
  let M := fun j => chunk.getD (4 * j) 0 + chunk.getD (4 * j + 1) 0 * 256 +
    chunk.getD (4 * j + 2) 0 * 65536 + chunk.getD (4 * j + 3) 0 * 16777216
  let r := (List.range 64).foldl (md5Step M) st
  ((st.1 + r.1) % 4294967296, (st.2.1 + r.2.1) % 4294967296,
   (st.2.2.1 + r.2.2.1) % 4294967296, (st.2.2.2 + r.2.2.2) % 4294967296)

/-- Split a byte list into successive 64-byte chunks. -/
def toChunks (l : List Nat) : List (List Nat) :=
  if h : l = [] then []
  else l.take 64 :: toChunks (l.drop 64)
termination_by l.length
decreasing_by
  simp only [List.length_drop]
  have h1 : 0 < l.length := List.length_pos.mpr h
  omega

/-- Little-endian byte serialisation of a 32-bit word. -/
def wordLE (x : Nat) : List Nat :=
  [x % 256, (x >>> 8) % 256, (x >>> 16) % 256, (x >>> 24) % 256]

/-- md5 digest (16 bytes) of a byte list: pad to 56 mod 64, append the
64-bit little-endian bit length, run the compression over each chunk. -/
def md5Bytes (msg : List Nat) : List Nat :=
  let L := msg.length
  let padded := msg ++ [0x80] ++ List.replicate ((119 - L % 64) % 64) 0 ++
    (List.range 8).map (fun i => (((8 * L) % 18446744073709551616) >>> (8 * i)) % 256)
  let r := (toChunks padded).foldl md5Chunk
    (0x67452301, 0xefcdab89, 0x98badcfe, 0x10325476)
  wordLE r.1 ++ wordLE r.2.1 ++ wordLE r.2.2.1 ++ wordLE r.2.2.2

/-- Lower-case hex digit. -/
def hexDigit (n : Nat) : Char :=
  if n < 10 then Char.ofNat (48 + n) else Char.ofNat (87 + n)

/-- Two-digit lower-case hex of a byte. -/
def byteHex (b : Nat) : List Char :=
  [hexDigit (b / 16), hexDigit (b % 16)]

/-- `hashlib.md5(s.encode()).hexdigest()`. -/
def md5Hex (s : String) : String :=
  String.mk (((md5Bytes (utf8Bytes s)).map byteHex).flatten)

namespace Agent

/-! ## Data model

Documents stored in the `query_history` collection (see `store_query_pair`),
the projections returned by retrieval, and the response dictionaries.
Optional dictionary keys are modelled as `Option` fields (`none` = the key is
absent from the Python dict). -/

/-- A sentence-transformer embedding (`model.encode(question).tolist()`). -/
abbrev Embedding := List Int

/-- A query result table (`results.to_dataframe()`), as a list of rows. -/
abbrev Table := List (List String)

/-- A document of the MongoDB collection, as built by `store_query_pair`.
`mongo_id` models the `_id` key. -/
structure Doc where
  mongo_id : String
  question : String
  sql : String
  embedding : Embedding
  execution_time : Nat
  was_successful : Bool
  result_preview : Option String
  timestamp : Nat
deriving Repr, DecidableEq

/-- The projection `{_id: 0, question: 1, sql: 1, was_successful: 1,
execution_time: 1}` used by both retrieval modes. -/
structure SimilarRec where
  question : String
  sql : String
  was_successful : Bool
  execution_time : Nat
deriving Repr, DecidableEq

/-- A few-shot example `{question, sql}` passed to `vn.generate_sql`. -/
structure ExamplePair where
  question : String
  sql : String
deriving Repr, DecidableEq

/-- The dictionary returned by `MongoDBSQLAgent.query`.  `Option` fields model
keys that are present only on some paths; `was_successful` is the tri-state
value (`none` = Python `None` on the awaiting-approval path). -/
structure Response where
  question : String
  sql : String
  requires_approval : Bool
  approved : Option Bool
  was_successful : Option Bool
  execution_time : Nat
  similar_queries : List SimilarRec
  awaiting_approval : Option Bool
  results : Option Table
  result_preview : Option String
  error_message : Option String
deriving Repr, DecidableEq

/-- The dictionary returned by the `/store-question-sql-pair` endpoint
(`api.py`).  The failure-path dict has no `execution_time`, `results` or
`result_preview` keys. -/
structure SPResponse where
  question : String
  sql : String
  was_successful : Bool
  execution_time : Option Nat
  results : Option Table
  result_preview : Option String
  error_message : Option String
  stored : Bool
deriving Repr, DecidableEq

/-- Observable calls made to the external collaborators during one pipeline
invocation: a generator call (with its optional examples argument — `none`
means the `examples` keyword was not passed at all), an executor call, and a
store upsert with the arguments `store_query_pair` received. -/
inductive Event where
  | genCall (question : String) (examples : Option (List ExamplePair))
  | execCall (sql : String)
  | storeCall (question : String) (sql : String) (execution_time : Nat)
      (was_successful : Bool) (result_preview : Option String)
deriving Repr, DecidableEq

/-- Is the event a generator invocation? -/
def Event.isGen : Event → Bool
  | .genCall _ _ => true
  | _ => false

/-- Is the event an executor invocation? -/
def Event.isExec : Event → Bool
  | .execCall _ => true
  | _ => false

/-- Is the event a store upsert? -/
def Event.isStore : Event → Bool
  | .storeCall _ _ _ _ _ => true
  | _ => false

/-- The external collaborators, as one environment of effect results.
`encode` is the sentence transformer, `vectorSearch` the Atlas
`$vectorSearch` aggregation of `_vector_search` (its internal `try/except`
returning `[]` and the `try/except` in `find_similar_queries` have the same
observable effect, so one `Except` covers both), `generate` is
`vn.generate_sql` (argument `none` = no `examples` keyword), `execute` is
`execute_query` together with `results.to_dataframe()` (table plus elapsed
time), `storeWrite` the outcome of the `replace_one` write, `render` the
pandas `head(5).to_string()` rendering, and `now` the clock read by
`datetime.now()`.  `Except.error` models a raised exception carrying its
stringified message. -/
structure Env where
  encode : String → Except String Embedding
  vectorSearch : Embedding → Nat → Except String (List SimilarRec)
  generate : String → Option (List ExamplePair) → Except String String
  execute : String → Except String (Table × Nat)
  storeWrite : Except String Unit
  render : Table → String
  now : Nat

/-! ## HistoryStore operations -/

/-- `collection.replace_one({"_id": id}, document, upsert=True)`: replace the
document with the matching `_id` (the collection never holds two documents
with the same `_id`), or insert it if none matches. -/
def replaceOneById (store : List Doc) (doc : Doc) : List Doc :=
  if store.any (fun d => d.mongo_id = doc.mongo_id) then
    store.map (fun d => if d.mongo_id = doc.mongo_id then doc else d)
  else store ++ [doc]

/-- `MongoDBSQLAgent.store_query_pair`: embed the question, build the
document (the `result_preview` key is added only when the value is truthy,
so `None` and `""` both leave it absent), key it by
`hashlib.md5(question.encode()).hexdigest()`, and upsert.  A raised
exception from the embedder or the write propagates as `Except.error`. -/
def store_query_pair (env : Env) (store : List Doc) (question sql : String)
    (execution_time : Nat) (was_successful : Bool)
    (result_preview : Option String) : Except String (List Doc) :=
  match env.encode question with
  | Except.error e => Except.error e
  | Except.ok embedding =>
    let doc : Doc :=
      { mongo_id := md5Hex question
        question := question
        sql := sql
        embedding := embedding
        execution_time := execution_time
        was_successful := was_successful
        result_preview := match result_preview with
          | some p => if p = "" then none else some p
          | none => none
        timestamp := env.now }
    match env.storeWrite with
    | Except.error e => Except.error e
    | Except.ok _ => Except.ok (replaceOneById store doc)

/-- Split a character list at every separator character (the separators are
consumed; empty pieces are kept, as `str.split(sep)` does). -/
def splitOnChar (sep : Char) : List Char → List (List Char)
  | [] => [[]]
  | c :: cs =>
    match splitOnChar sep cs with
    | [] => [[c]]
    | w :: ws => if c == sep then [] :: w :: ws else (c :: w) :: ws

/-- Split a character list at every character satisfying `p` (pieces between
consecutive separators are empty and kept; callers drop them). -/
def splitWhen (p : Char → Bool) : List Char → List (List Char)
  | [] => [[]]
  | c :: cs =>
    match splitWhen p cs with
    | [] => [[c]]
    | w :: ws => if p c then [] :: w :: ws else (c :: w) :: ws

/-- Python `s.lower()` (ASCII case mapping — the questions and stored
questions this code handles are ASCII text). -/
def strLower (s : String) : String :=
  String.mk (s.data.map Char.toLower)

/-- Python `s.split()` with no separator: split on whitespace runs,
dropping empty pieces. -/
def pyWords (s : String) : List String :=
  ((splitWhen (fun c => c.isWhitespace) s.data).filter
    (fun w => w ≠ [])).map String.mk

/-- The keyword list of `_text_search`:
`[word for word in question.lower().split() if len(word) > 3]`. -/
def keywordsOf (question : String) : List String :=
  (pyWords (strLower question)).filter (fun word => word.length > 3)

/-- Does `needle` occur as a prefix of `hay` (character lists)? -/
def startsWithC : List Char → List Char → Bool
  | [], _ => true
  | _ :: _, [] => false
  | a :: as, b :: bs => a == b && startsWithC as bs

/-- Does `needle` occur as a contiguous sublist of `hay`? -/
def containsSubC (needle : List Char) : List Char → Bool
  | [] => startsWithC needle []
  | b :: bs => startsWithC needle (b :: bs) || containsSubC needle bs

/-- The MongoDB filter `{"question": {"$regex": "|".join(keywords),
"$options": "i"}}`: the pattern is the `|`-alternation of the keywords
(metacharacters other than `|` are not interpreted — the keywords come from
natural-language words), and a document matches when some alternative is a
case-insensitive substring of its question.  Joining zero keywords gives the
empty pattern, whose single empty alternative matches every string. -/
def regexAltMatches (keywords : List String) (text : String) : Bool :=
  let pattern := String.intercalate "|" keywords
  (splitOnChar '|' pattern.data).any
    (fun alt => containsSubC (alt.map Char.toLower) (text.data.map Char.toLower))

/-- pymongo `cursor.limit(k)`: a limit of 0 is equivalent to no limit
(pymongo documents `limit(0)` as removing the limit), otherwise at most `k`
documents are returned. -/
def mongoLimit (k : Nat) (l : List α) : List α :=
  if k = 0 then l else l.take k

/-- The `{_id: 0, question: 1, sql: 1, was_successful: 1, execution_time: 1}`
projection applied by `find(...)`. -/
def projDoc (d : Doc) : SimilarRec :=
  { question := d.question
    sql := d.sql
    was_successful := d.was_successful
    execution_time := d.execution_time }

/-- `MongoDBSQLAgent._text_search`: keyword fallback over the collection,
in store-native order, limited by `top_k`. -/
def text_search (store : List Doc) (question : String) (top_k : Nat) :
    List SimilarRec :=
  let keywords := keywordsOf question
  (mongoLimit top_k
    (store.filter (fun d => regexAltMatches keywords d.question))).map projDoc

/-- `MongoDBSQLAgent.find_similar_queries`: embed the question (a raised
embedder error propagates), try the vector search, and fall back to
`_text_search` when it raises or returns no results. -/
def find_similar_queries (env : Env) (store : List Doc) (question : String)
    (top_k : Nat) : Except String (List SimilarRec) :=
  match env.encode question with
  | Except.error e => Except.error e
  | Except.ok embedding =>
    match env.vectorSearch embedding top_k with
    | Except.ok similar_queries =>
      if similar_queries.isEmpty then
        Except.ok (text_search store question top_k)
      else Except.ok similar_queries
    | Except.error _ => Except.ok (text_search store question top_k)

/-! ## The pipeline -/

/-- `MongoDBSQLAgent.generate_sql`: retrieve similar queries (default
`top_k = 3`), keep the successful ones as `{question, sql}` examples, and
call the generator — with the `examples` keyword only when the list is
non-empty.  Returns the result together with the generator-call events. -/
def generate_sql (env : Env) (store : List Doc) (question : String) :
    Except String (String × List SimilarRec) × List Event :=
  match find_similar_queries env store question 3 with
  | Except.error e => (Except.error e, [])
  | Except.ok similar_queries =>
    let example_pairs := (similar_queries.filter
      (fun r => r.was_successful)).map
      (fun r => ({ question := r.question, sql := r.sql } : ExamplePair))
    let examplesArg : Option (List ExamplePair) :=
      if example_pairs.isEmpty then none else some example_pairs
    match env.generate question examplesArg with
    | Except.error e => (Except.error e, [Event.genCall question examplesArg])
    | Except.ok sql => (Except.ok (sql, similar_queries),
        [Event.genCall question examplesArg])

/-- `MongoDBSQLAgent.query`: generate SQL, stop at the approval gate when
`require_approval and not approved`, otherwise execute under a `try/except`,
optionally store, and assemble the response.  The returned triple is
(result-or-raised-error, collection state afterwards, collaborator events).
Note the early-return dict has no `approved` key, and the store upsert is not
wrapped in any `try` — its failure propagates. -/
def query (env : Env) (store : List Doc) (question : String)
    (store_results require_approval approved : Bool) :
    Except String Response × List Doc × List Event :=
  match generate_sql env store question with
  | (Except.error e, evs) => (Except.error e, store, evs)
  | (Except.ok (sql, similar_queries), evs) =>
    if require_approval && !approved then
      (Except.ok
        { question := question
          sql := sql
          requires_approval := true
          approved := none
          was_successful := none
          execution_time := 0
          similar_queries := similar_queries
          awaiting_approval := some true
          results := none
          result_preview := none
          error_message := none },
       store, evs)
    else
      let r : Bool × Nat × Option Table × Option String × Option String :=
        match env.execute sql with
        | Except.ok (results, t) =>
          (true, t, some results,
           some (if results.isEmpty then "No results"
                 else env.render (results.take 5)), none)
        | Except.error e => (false, 0, none, none, some e)
      let was_successful := r.1
      let execution_time := r.2.1
      let df := r.2.2.1
      let result_preview := r.2.2.2.1
      let error_message := r.2.2.2.2
      let evs2 := evs ++ [Event.execCall sql]
      let stored : Except String (List Doc) × List Event :=
        if store_results then
          (store_query_pair env store question sql execution_time
             was_successful result_preview,
           [Event.storeCall question sql execution_time was_successful
              result_preview])
        else (Except.ok store, [])
      match stored.1 with
      | Except.error e => (Except.error e, store, evs2 ++ stored.2)
      | Except.ok store2 =>
        (Except.ok
          { question := question
            sql := sql
            requires_approval := require_approval
            approved := some approved
            was_successful := some was_successful
            execution_time := execution_time
            similar_queries := similar_queries
            awaiting_approval := none
            results := if was_successful then df else none
            result_preview := if was_successful then result_preview else none
            error_message := if was_successful then none else error_message },
         store2, evs2 ++ stored.2)

/-! ## The `/store-question-sql-pair` endpoint (`api.py`) -/

/-- The `except Exception as e:` block of `store_question_sql_pair`
(`api.py` lines 248-271): optionally store the failed pair, catching a store
failure separately and appending its message; the `stored` flag is
`store_results and "failed to store" not in error_message`. -/
def sp_failure_path (env : Env) (store : List Doc) (question sql : String)
    (store_results : Bool) (e : String) : SPResponse × List Doc :=
  let r : String × List Doc :=
    if store_results then
      match store_query_pair env store question sql 0 false none with
      | Except.ok s2 => (e, s2)
      | Except.error store_error =>
        (e ++ " (Additionally, failed to store query: " ++ store_error ++ ")",
         store)
    else (e, store)
  let error_message := r.1
  ({ question := question
     sql := sql
     was_successful := false
     execution_time := none
     results := none
     result_preview := none
     error_message := some error_message
     stored := store_results &&
       !(containsSubC "failed to store".data error_message.data) },
   r.2)

/-- The `/store-question-sql-pair` endpoint: execute the given SQL, store the
pair on success, and on any exception from the `try` block (execution or the
success-path store) run the failure path above.  The endpoint itself never
raises. -/
def store_question_sql_pair (env : Env) (store : List Doc)
    (question sql : String) (store_results : Bool) :
    SPResponse × List Doc :=
  match env.execute sql with
  | Except.error e => sp_failure_path env store question sql store_results e
  | Except.ok (results, t) =>
    let result_preview := if results.isEmpty then "No results"
      else env.render (results.take 5)
    if store_results then
      match store_query_pair env store question sql t true
          (some result_preview) with
      | Except.error store_error =>
        sp_failure_path env store question sql store_results store_error
      | Except.ok s2 =>
        ({ question := question
           sql := sql
           was_successful := true
           execution_time := some t
           results := some results
           result_preview := some result_preview
           error_message := none
           stored := true },
         s2)
    else
      ({ question := question
         sql := sql
         was_successful := true
         execution_time := some t
         results := some results
         result_preview := some result_preview
         error_message := none
         stored := false },
       store)

/-! ## Statement helpers and concrete instances -/

/-- The `result_preview` field `store_query_pair` actually stores: the key is
added only when the passed value is truthy (`None` and `""` leave it
absent). -/
def previewField (p : Option String) : Option String :=
  match p with
  | some s => if s = "" then none else some s
  | none => none

/-- The similar-query list `find_similar_queries` produces once the embedding
is known: the vector-search result when it is non-empty, the keyword fallback
otherwise (used to state theorems about `generate_sql`, which retrieves with
`top_k = 3`). -/
def similar_of (env : Env) (store : List Doc) (question : String)
    (emb : Embedding) : List SimilarRec :=
  match env.vectorSearch emb 3 with
  | Except.ok rs => if rs.isEmpty then text_search store question 3 else rs
  | Except.error _ => text_search store question 3

/-- The example pairs `generate_sql` builds: the successful entries of the
retrieved list, in order, projected to `{question, sql}`. -/
def examples_of (env : Env) (store : List Doc) (question : String)
    (emb : Embedding) : List ExamplePair :=
  ((similar_of env store question emb).filter (fun r => r.was_successful)).map
    (fun r => ({ question := r.question, sql := r.sql } : ExamplePair))

/-- The optional `examples` argument `generate_sql` passes to the generator:
absent when the example list is empty. -/
def genArg_of (env : Env) (store : List Doc) (question : String)
    (emb : Embedding) : Option (List ExamplePair) :=
  if (examples_of env store question emb).isEmpty then none
  else some (examples_of env store question emb)

/-- An environment in which every collaborator succeeds and the vector search
finds nothing. -/
def envOk : Env :=
  { encode := fun _ => Except.ok [1]
    vectorSearch := fun _ _ => Except.ok []
    generate := fun _ _ => Except.ok "SELECT 1"
    execute := fun _ => Except.ok ([["r"]], 5)
    storeWrite := Except.ok ()
    render := fun _ => "tbl"
    now := 7 }

/-- Like `envOk` but the warehouse rejects every statement. -/
def envExecFail : Env := { envOk with execute := fun _ => Except.error "exec boom" }

/-- Like `envExecFail` but the store write also fails. -/
def envExecStoreFail : Env := { envExecFail with storeWrite := Except.error "store boom" }

/-- Like `envOk` but the embedder is unreachable. -/
def envEmbedFail : Env := { envOk with encode := fun _ => Except.error "embed down" }

/-- Like `envOk` but the vector index raises. -/
def envVecFail : Env := { envOk with vectorSearch := fun _ _ => Except.error "no index" }

/-- A stored document whose question mentions orders. -/
def docOrders : Doc :=
  { mongo_id := "x1"
    question := "show all orders today"
    sql := "SELECT * FROM orders"
    embedding := [1]
    execution_time := 2
    was_successful := true
    result_preview := none
    timestamp := 0 }

/-- The response `MongoDBSQLAgent.query` actually returns on the
awaiting-approval path for `envOk` and the question `"hello world"`:
note the absent `approved` key and the `awaiting_approval: true` key. -/
def respC9 : Response :=
  { question := "hello world"
    sql := "SELECT 1"
    requires_approval := true
    approved := none
    was_successful := none
    execution_time := 0
    similar_queries := []
    awaiting_approval := some true
    results := none
    result_preview := none
    error_message := none }

end Agent

namespace Agent

/-! ## Supporting lemmas -/

/-- Appending strings concatenates their character data. -/
theorem string_data_append (a b : String) : (a ++ b).data = a.data ++ b.data := rfl

/-- The empty needle occurs in every list. -/
theorem containsSubC_nil (l : List Char) : containsSubC [] l = true := by
  cases l <;> simp [containsSubC, startsWithC]

/-- A prefix stays a prefix under appending on the right. -/
theorem startsWithC_append (n xs ys : List Char) (h : startsWithC n xs = true) :
    startsWithC n (xs ++ ys) = true := by
  induction n generalizing xs with
  | nil => simp [startsWithC]
  | cons a as ih =>
    cases xs with
    | nil => simp [startsWithC] at h
    | cons b bs =>
      simp [startsWithC] at h ⊢
      exact ⟨h.1, ih bs h.2⟩

/-- A sublist of the right part occurs in the concatenation. -/
theorem containsSubC_append_right (n xs ys : List Char)
    (h : containsSubC n ys = true) : containsSubC n (xs ++ ys) = true := by
  induction xs with
  | nil => simpa using h
  | cons x xs ih => simp [containsSubC, ih]

/-- A sublist of the left part occurs in the concatenation. -/
theorem containsSubC_append_left (n xs ys : List Char)
    (h : containsSubC n xs = true) : containsSubC n (xs ++ ys) = true := by
  induction xs with
  | nil =>
    cases n with
    | nil => simpa using containsSubC_nil ys
    | cons a as => simp [containsSubC, startsWithC] at h
  | cons x xs ih =>
    simp [containsSubC] at h ⊢
    rcases h with h | h
    · exact Or.inl (startsWithC_append n (x :: xs) ys h)
    · exact Or.inr (ih h)

/-- Once the embedding succeeds, `find_similar_queries` is `similar_of`. -/
theorem find_similar_queries_eq (env : Env) (store : List Doc) (q : String)
    (emb : Embedding) (henc : env.encode q = Except.ok emb) :
    find_similar_queries env store q 3 = Except.ok (similar_of env store q emb) := by
  unfold find_similar_queries similar_of
  rw [henc]
  dsimp only
  cases h : env.vectorSearch emb 3 with
  | error e => rfl
  | ok rs => by_cases hrs : rs.isEmpty <;> simp [hrs]

/-- Once the embedding succeeds, `generate_sql` calls the generator exactly
once, with the optional argument `genArg_of`. -/
theorem generate_sql_eq (env : Env) (store : List Doc) (q : String)
    (emb : Embedding) (henc : env.encode q = Except.ok emb) :
    generate_sql env store q =
      ((env.generate q (genArg_of env store q emb)).map
        (fun sql => (sql, similar_of env store q emb)),
       [Event.genCall q (genArg_of env store q emb)]) := by
  unfold generate_sql
  rw [find_similar_queries_eq env store q emb henc]
  dsimp only [genArg_of, examples_of]
  split
  next e heq => rw [heq]; rfl
  next sql heq => rw [heq]; rfl

/-- The event trace of `generate_sql` is empty or one generator call. -/
theorem generate_sql_events (env : Env) (store : List Doc) (q : String) :
    (generate_sql env store q).2 = [] ∨
    ∃ args, (generate_sql env store q).2 = [Event.genCall q args] := by
  unfold generate_sql
  cases h : find_similar_queries env store q 3 with
  | error e => exact Or.inl rfl
  | ok similar_queries =>
    dsimp only
    split
    next e heq => exact Or.inr ⟨_, rfl⟩
    next sql heq => exact Or.inr ⟨_, rfl⟩

/-- Replacing every id-matching document and filtering for that id yields one
copy of the new document per previous match. -/
theorem filter_map_replace (store : List Doc) (doc : Doc) :
    ((store.map (fun d => if d.mongo_id = doc.mongo_id then doc else d)).filter
      (fun d => d.mongo_id = doc.mongo_id)) =
    (store.filter (fun d => d.mongo_id = doc.mongo_id)).map (fun _ => doc) := by
  induction store with
  | nil => rfl
  | cons a l ih =>
    by_cases h : a.mongo_id = doc.mongo_id <;> simp [h, ih]

/-- `replace_one(upsert=True)` on a collection holding at most one document
with the target id leaves exactly the new document under that id. -/
theorem replaceOneById_filter (store : List Doc) (doc : Doc) (id : String)
    (hid : doc.mongo_id = id)
    (h : (store.filter (fun d => d.mongo_id = id)).length ≤ 1) :
    ((replaceOneById store doc).filter (fun d => d.mongo_id = id)) =
      [doc] := by
  subst hid
  unfold replaceOneById
  by_cases hany : store.any (fun d => d.mongo_id = doc.mongo_id)
  · rw [if_pos hany, filter_map_replace]
    have hne : (store.filter (fun d => d.mongo_id = doc.mongo_id)) ≠ [] := by
      intro hnil
      rcases List.any_eq_true.mp hany with ⟨x, hx, hpx⟩
      have : x ∈ store.filter (fun d => d.mongo_id = doc.mongo_id) :=
        List.mem_filter.mpr ⟨hx, hpx⟩
      simp [hnil] at this
    have hlen : (store.filter (fun d => d.mongo_id = doc.mongo_id)).length = 1 := by
      have := List.length_pos.mpr hne
      omega
    rcases List.length_eq_one.mp hlen with ⟨a, ha⟩
    rw [ha]
    rfl
  · rw [if_neg hany]
    have hany2 : store.any (fun d => d.mongo_id = doc.mongo_id) = false :=
      Bool.eq_false_iff.mpr hany
    have hnil : (store.filter (fun d => d.mongo_id = doc.mongo_id)) = [] := by
      rw [List.filter_eq_nil_iff]
      intro a ha
      have := List.any_eq_false.mp hany2 a ha
      simpa using this
    rw [List.filter_append, hnil]
    simp

/-- Any `query` call whose embedding succeeds emits exactly one generator
call (first event), and nothing after it is a generator call. -/
theorem query_gen_events (env : Env) (store : List Doc) (q : String)
    (sr ra ap : Bool) (emb : Embedding) (henc : env.encode q = Except.ok emb) :
    ∃ rest, (query env store q sr ra ap).2.2 =
      Event.genCall q (genArg_of env store q emb) :: rest ∧
      rest.filter Event.isGen = [] := by
  unfold query
  rw [generate_sql_eq env store q emb henc]
  cases hg : env.generate q (genArg_of env store q emb) with
  | error e => exact ⟨[], rfl, rfl⟩
  | ok sql =>
    dsimp only [Except.map]
    by_cases hra : (ra && !ap) = true
    · rw [if_pos hra]
      exact ⟨[], rfl, rfl⟩
    · rw [if_neg hra]
      cases he : env.execute sql with
      | ok p =>
        obtain ⟨results, t⟩ := p
        dsimp only
        by_cases hsr : sr = true
        · rw [if_pos hsr]
          dsimp only
          split
          · exact ⟨_, rfl, rfl⟩
          · exact ⟨_, rfl, rfl⟩
        · rw [if_neg hsr]
          exact ⟨_, rfl, rfl⟩
      | error e =>
        dsimp only
        by_cases hsr : sr = true
        · rw [if_pos hsr]
          dsimp only
          split
          · exact ⟨_, rfl, rfl⟩
          · exact ⟨_, rfl, rfl⟩
        · rw [if_neg hsr]
          exact ⟨_, rfl, rfl⟩

/-- Joining zero keywords gives a pattern matching every string. -/
theorem regexAltMatches_nil (t : String) : regexAltMatches [] t = true := by
  unfold regexAltMatches
  dsimp only
  rw [show splitOnChar '|' (String.intercalate "|" ([] : List String)).data = [[]] from rfl]
  simp [containsSubC_nil]

/-- A positive `limit` caps the result length. -/
theorem mongoLimit_length_le {α : Type} (k : Nat) (hk : 1 ≤ k) (l : List α) :
    (mongoLimit k l).length ≤ k := by
  unfold mongoLimit
  rw [if_neg (by omega)]
  simp [List.length_take]

/-- `limit` never turns a non-empty result set into an empty one. -/
theorem mongoLimit_ne_nil {α : Type} (k : Nat) (l : List α) (h : l ≠ []) :
    mongoLimit k l ≠ [] := by
  unfold mongoLimit
  split
  · exact h
  · next hk =>
    cases l with
    | nil => exact absurd rfl h
    | cons a l =>
      cases k with
      | zero => exact absurd rfl hk
      | succ k => simp

/-! ## Claim theorems -/

/-- C1: for every question, calling `query` with `require_approval = true`
and `approved = false` never invokes the executor and never invokes the
store upsert: the pipeline stops after generation, the collection is
unchanged, and this holds for any environment, any store content and either
value of `store_results`. -/
theorem approval_gate_blocks_execution_and_storage (env : Env)
    (store : List Doc) (question : String) (store_results : Bool) :
    (query env store question store_results true false).2.1 = store ∧
    ((query env store question store_results true false).2.2.filter
      Event.isExec) = [] ∧
    ((query env store question store_results true false).2.2.filter
      Event.isStore) = [] := by
  have hev := generate_sql_events env store question
  unfold query
  cases hg : generate_sql env store question with
  | mk res evs =>
    rw [hg] at hev
    dsimp only at hev
    cases res with
    | error e =>
      dsimp only
      refine ⟨rfl, ?_, ?_⟩ <;>
        rcases hev with hev | ⟨args, hev⟩ <;> subst hev <;> rfl
    | ok p =>
      obtain ⟨sql, sim⟩ := p
      dsimp only
      rw [if_pos (show (true && !false) = true from rfl)]
      refine ⟨rfl, ?_, ?_⟩ <;>
        rcases hev with hev | ⟨args, hev⟩ <;> subst hev <;> rfl

/-- C8: when the embedder or the generator raises during generation, `query`
propagates the error to its caller: the result is the raised error (no
response), the collection is unchanged, and no executor call and no store
upsert happened. -/
theorem generation_failure_propagates (env : Env) (store : List Doc)
    (q : String) (sr ra ap : Bool)
    (h : (∃ e, env.encode q = Except.error e) ∨
         (∃ emb, env.encode q = Except.ok emb ∧
           ∃ e, ∀ args, env.generate q args = Except.error e)) :
    (∃ err, (query env store q sr ra ap).1 = Except.error err) ∧
    (query env store q sr ra ap).2.1 = store ∧
    ((query env store q sr ra ap).2.2.filter Event.isExec) = [] ∧
    ((query env store q sr ra ap).2.2.filter Event.isStore) = [] := by
  rcases h with ⟨e, henc⟩ | ⟨emb, henc, e, hgen⟩
  · have hg : generate_sql env store q = (Except.error e, []) := by
      unfold generate_sql find_similar_queries
      rw [henc]
    unfold query
    rw [hg]
    exact ⟨⟨e, rfl⟩, rfl, rfl, rfl⟩
  · have hg : generate_sql env store q =
        (Except.error e, [Event.genCall q (genArg_of env store q emb)]) := by
      rw [generate_sql_eq env store q emb henc, hgen]
      rfl
    unfold query
    rw [hg]
    exact ⟨⟨e, rfl⟩, rfl, rfl, rfl⟩

/-- C8 witness: with an unreachable embedder, a concrete `query` call fails
with the embedder's error, leaves the store unchanged and performs no
execution and no storage. -/
theorem generation_failure_propagates_witness :
    (∃ err, (query envEmbedFail [] "total revenue by region" true true
      false).1 = Except.error err) ∧
    (query envEmbedFail [] "total revenue by region" true true false).2.1
      = [] ∧
    ((query envEmbedFail [] "total revenue by region" true true
      false).2.2.filter Event.isExec) = [] ∧
    ((query envEmbedFail [] "total revenue by region" true true
      false).2.2.filter Event.isStore) = [] :=
  generation_failure_propagates envEmbedFail [] "total revenue by region"
    true true false (Or.inl ⟨"embed down", rfl⟩)

/-- C9 counterexample: on the awaiting-approval path the code returns a
dictionary with no `approved` key at all (and with an `awaiting_approval`
key the claim does not mention), so the claimed `approved: false` field is
absent: concretely, the response for `envOk` and question `"hello world"` is
`respC9`, whose `approved` field is `none`, not `some false`. -/
theorem awaiting_response_approved_cex :
    (query envOk [] "hello world" true true false).1 = Except.ok respC9 ∧
    respC9.approved = none := by
  constructor
  · rfl
  · rfl

/-- C9 amended: on the awaiting-approval path (`require_approval = true`,
`approved = false`), `query` returns exactly the record
`{question, sql, requires_approval: true, was_successful: null,
execution_time: 0, similar_queries, awaiting_approval: true}` — with an
`awaiting_approval: true` field and no `approved` field — and the store is
unchanged. -/
theorem awaiting_response_shape (env : Env) (store : List Doc) (q sql : String)
    (sr : Bool) (emb : Embedding)
    (henc : env.encode q = Except.ok emb)
    (hgen : ∀ args, env.generate q args = Except.ok sql) :
    (query env store q sr true false).1 = Except.ok
      { question := q
        sql := sql
        requires_approval := true
        approved := none
        was_successful := none
        execution_time := 0
        similar_queries := similar_of env store q emb
        awaiting_approval := some true
        results := none
        result_preview := none
        error_message := none } ∧
    (query env store q sr true false).2.1 = store := by
  unfold query
  rw [generate_sql_eq env store q emb henc, hgen]
  exact ⟨rfl, rfl⟩

/-- C9 amended witness: concrete awaiting-approval call returning exactly
the expected record. -/
theorem awaiting_response_shape_witness :
    (query envOk [] "hello world" false true false).1 = Except.ok
      { question := "hello world"
        sql := "SELECT 1"
        requires_approval := true
        approved := none
        was_successful := none
        execution_time := 0
        similar_queries := similar_of envOk [] "hello world" [1]
        awaiting_approval := some true
        results := none
        result_preview := none
        error_message := none } ∧
    (query envOk [] "hello world" false true false).2.1 = [] :=
  awaiting_response_shape envOk [] "hello world" "SELECT 1" false [1] rfl
    (fun _ => rfl)

/-- C7: SQL is never cached across the two-phase approval flow — calling
`query` with `approved = false` and then again with `approved = true`
invokes the generator exactly once per call (twice in total), for any store
contents and `store_results` flags, whenever the embedder is reachable. -/
theorem approval_gate_regenerates (env : Env) (store : List Doc) (q : String)
    (sr1 sr2 : Bool) (emb : Embedding)
    (henc : env.encode q = Except.ok emb) :
    ((query env store q sr1 true false).2.2.filter Event.isGen).length = 1 ∧
    ((query env (query env store q sr1 true false).2.1 q sr2 true
      true).2.2.filter Event.isGen).length = 1 ∧
    (((query env store q sr1 true false).2.2 ++
      (query env (query env store q sr1 true false).2.1 q sr2 true
        true).2.2).filter Event.isGen).length = 2 := by
  obtain ⟨r1, h1, h1f⟩ := query_gen_events env store q sr1 true false emb henc
  obtain ⟨r2, h2, h2f⟩ := query_gen_events env
    (query env store q sr1 true false).2.1 q sr2 true true emb henc
  have f1 : (query env store q sr1 true false).2.2.filter Event.isGen =
      [Event.genCall q (genArg_of env store q emb)] := by
    rw [h1]
    simp [Event.isGen, h1f]
  have f2 : (query env (query env store q sr1 true false).2.1 q sr2 true
      true).2.2.filter Event.isGen =
      [Event.genCall q (genArg_of env
        (query env store q sr1 true false).2.1 q emb)] := by
    rw [h2]
    simp [Event.isGen, h2f]
  refine ⟨?_, ?_, ?_⟩
  · rw [f1]; rfl
  · rw [f2]; rfl
  · rw [List.filter_append, f1, f2]; rfl

/-- C7 witness: two concrete calls — preview then approved — each record
exactly one generator invocation. -/
theorem approval_gate_regenerates_witness :
    ((query envOk [] "big question" true true false).2.2.filter
      Event.isGen).length = 1 ∧
    ((query envOk (query envOk [] "big question" true true false).2.1
      "big question" true true true).2.2.filter Event.isGen).length = 1 ∧
    (((query envOk [] "big question" true true false).2.2 ++
      (query envOk (query envOk [] "big question" true true false).2.1
        "big question" true true true).2.2).filter Event.isGen).length = 2 :=
  approval_gate_regenerates envOk [] "big question" true true [1] rfl

/-- C4: the examples passed to the generator are exactly the successful
entries of the retrieved similar queries, in order, projected to
`{question, sql}`; when that subsequence is empty the generator is invoked
with no examples argument at all — an empty examples list is never passed. -/
theorem example_filtering (env : Env) (store : List Doc) (q : String)
    (emb : Embedding) (henc : env.encode q = Except.ok emb) :
    examples_of env store q emb = ((similar_of env store q emb).filter
      (fun r => r.was_successful)).map
      (fun r => ({ question := r.question, sql := r.sql } : ExamplePair)) ∧
    (((generate_sql env store q).2 =
        [Event.genCall q (some (examples_of env store q emb))] ∧
      examples_of env store q emb ≠ []) ∨
     ((generate_sql env store q).2 = [Event.genCall q none] ∧
      examples_of env store q emb = [])) := by
  refine ⟨rfl, ?_⟩
  have hev : (generate_sql env store q).2 =
      [Event.genCall q (genArg_of env store q emb)] := by
    rw [generate_sql_eq env store q emb henc]
  by_cases h : (examples_of env store q emb).isEmpty = true
  · right
    refine ⟨?_, ?_⟩
    · rw [hev]
      unfold genArg_of
      rw [if_pos h]
    · exact List.isEmpty_iff.mp h
  · left
    refine ⟨?_, ?_⟩
    · rw [hev]
      unfold genArg_of
      rw [if_neg h]
    · intro hnil
      exact h (by simp [hnil])

/-- C4 witness: with an empty store nothing similar is retrieved, the
example list is empty, and the generator is called with no examples
argument (not with an empty list). -/
theorem example_filtering_witness :
    examples_of envOk [] "which customers" [1] =
      ((similar_of envOk [] "which customers" [1]).filter
        (fun r => r.was_successful)).map
        (fun r => ({ question := r.question, sql := r.sql } : ExamplePair)) ∧
    (((generate_sql envOk [] "which customers").2 =
        [Event.genCall "which customers"
          (some (examples_of envOk [] "which customers" [1]))] ∧
      examples_of envOk [] "which customers" [1] ≠ []) ∨
     ((generate_sql envOk [] "which customers").2 =
        [Event.genCall "which customers" none] ∧
      examples_of envOk [] "which customers" [1] = [])) :=
  example_filtering envOk [] "which customers" [1] rfl

/-- C3: when the executor raises and `store_results = true`, `query` catches
the error, calls the store upsert exactly once with `was_successful = false`,
`execution_time = 0` and no `result_preview`, and returns a response with
`was_successful = false`, `execution_time = 0`, `error_message` equal to the
stringified executor error, and no `results` and no `result_preview`
fields. -/
theorem exec_failure_stores_and_reports (env : Env) (store : List Doc)
    (q sql e : String) (emb : Embedding) (ra ap : Bool)
    (henc : env.encode q = Except.ok emb)
    (hgen : ∀ args, env.generate q args = Except.ok sql)
    (hexec : env.execute sql = Except.error e)
    (hw : env.storeWrite = Except.ok ())
    (hgate : (ra && !ap) = false) :
    ((query env store q true ra ap).2.2.filter Event.isStore) =
      [Event.storeCall q sql 0 false none] ∧
    ∃ resp, (query env store q true ra ap).1 = Except.ok resp ∧
      resp.was_successful = some false ∧
      resp.execution_time = 0 ∧
      resp.error_message = some e ∧
      resp.results = none ∧
      resp.result_preview = none := by
  have hsq : store_query_pair env store q sql 0 false none =
      Except.ok (replaceOneById store
        { mongo_id := md5Hex q
          question := q
          sql := sql
          embedding := emb
          execution_time := 0
          was_successful := false
          result_preview := none
          timestamp := env.now }) := by
    unfold store_query_pair
    rw [henc]
    dsimp only
    rw [hw]
  unfold query
  rw [generate_sql_eq env store q emb henc, hgen]
  dsimp only [Except.map]
  rw [if_neg (by rw [hgate]; exact Bool.false_ne_true)]
  rw [hexec]
  dsimp only
  rw [if_pos rfl, hsq]
  exact ⟨rfl, _, rfl, rfl, rfl, rfl, rfl, rfl⟩

/-- C3 witness: concrete failing execution with storage enabled — one store
call with the failure record, and the failed response fields as claimed. -/
theorem exec_failure_stores_and_reports_witness :
    ((query envExecFail [] "what is it" true false false).2.2.filter
      Event.isStore) =
      [Event.storeCall "what is it" "SELECT 1" 0 false none] ∧
    ∃ resp, (query envExecFail [] "what is it" true false false).1 =
      Except.ok resp ∧
      resp.was_successful = some false ∧
      resp.execution_time = 0 ∧
      resp.error_message = some "exec boom" ∧
      resp.results = none ∧
      resp.result_preview = none :=
  exec_failure_stores_and_reports envExecFail [] "what is it" "SELECT 1"
    "exec boom" [1] false false rfl (fun _ => rfl) rfl rfl rfl


/-- A successful upsert replaces the collection with `replaceOneById` of the
document built from the call's arguments, keyed by the question's md5. -/
theorem store_query_pair_ok (env : Env) (store : List Doc) (q sql : String)
    (t : Nat) (b : Bool) (p : Option String) (emb : Embedding)
    (henc : env.encode q = Except.ok emb)
    (hw : env.storeWrite = Except.ok ()) :
    store_query_pair env store q sql t b p = Except.ok (replaceOneById store
      { mongo_id := md5Hex q
        question := q
        sql := sql
        embedding := emb
        execution_time := t
        was_successful := b
        result_preview := previewField p
        timestamp := env.now }) := by
  unfold store_query_pair
  rw [henc]
  dsimp only
  rw [hw]
  rfl

/-- C5: the stored record id is `md5Hex` of the exact question text — a pure
function of the question, identical on every call (even across different
environments) — and upserting the same question twice leaves exactly one
stored record for it, all of whose fields come from the second call (full
replace, no merge, no duplicate). -/
theorem store_id_idempotent (env env' : Env) (store : List Doc)
    (q sql1 sql2 : String) (t1 t2 : Nat) (b1 b2 : Bool)
    (p1 p2 : Option String) (emb1 emb2 : Embedding)
    (h1 : env.encode q = Except.ok emb1)
    (hw1 : env.storeWrite = Except.ok ())
    (h2 : env'.encode q = Except.ok emb2)
    (hw2 : env'.storeWrite = Except.ok ())
    (hcount : (store.filter (fun d => d.mongo_id = md5Hex q)).length ≤ 1) :
    ∃ s1, store_query_pair env store q sql1 t1 b1 p1 = Except.ok s1 ∧
    ∃ s2, store_query_pair env' s1 q sql2 t2 b2 p2 = Except.ok s2 ∧
      s2.filter (fun d => d.mongo_id = md5Hex q) =
        [{ mongo_id := md5Hex q
           question := q
           sql := sql2
           embedding := emb2
           execution_time := t2
           was_successful := b2
           result_preview := previewField p2
           timestamp := env'.now }] := by
  refine ⟨_, store_query_pair_ok env store q sql1 t1 b1 p1 emb1 h1 hw1, ?_⟩
  refine ⟨_, store_query_pair_ok env' _ q sql2 t2 b2 p2 emb2 h2 hw2, ?_⟩
  have hf1 := replaceOneById_filter store
    { mongo_id := md5Hex q
      question := q
      sql := sql1
      embedding := emb1
      execution_time := t1
      was_successful := b1
      result_preview := previewField p1
      timestamp := env.now } (md5Hex q) rfl hcount
  exact replaceOneById_filter _ _ (md5Hex q) rfl
    (by rw [hf1]; exact Nat.le_refl 1)

/-- C5 witness: concrete double upsert of the same question leaves exactly
the second call's record under the question's md5 id. -/
theorem store_id_idempotent_witness :
    ∃ s1, store_query_pair envOk [] "total revenue" "S1" 1 true none =
      Except.ok s1 ∧
    ∃ s2, store_query_pair envOk s1 "total revenue" "S2" 2 false
      (some "p") = Except.ok s2 ∧
      s2.filter (fun d => d.mongo_id = md5Hex "total revenue") =
        [{ mongo_id := md5Hex "total revenue"
           question := "total revenue"
           sql := "S2"
           embedding := [1]
           execution_time := 2
           was_successful := false
           result_preview := previewField (some "p")
           timestamp := 7 }] :=
  store_id_idempotent envOk envOk [] "total revenue" "S1" "S2" 1 2 true
    false none (some "p") [1] [1] rfl rfl rfl rfl (by decide)

/-- The literal `"failed to store"` occurs in any message of the form
`e ++ " (Additionally, failed to store query: " ++ se ++ ")"`. -/
theorem failed_to_store_in_message (e se : String) :
    containsSubC ("failed to store".data)
      ((e ++ " (Additionally, failed to store query: " ++ se ++ ")").data)
      = true := by
  have hd : (e ++ " (Additionally, failed to store query: " ++ se ++ ")").data
      = e.data ++ (" (Additionally, failed to store query: ".data ++
        (se.data ++ ")".data)) := by
    simp [string_data_append, List.append_assoc]
  rw [hd]
  apply containsSubC_append_right
  apply containsSubC_append_left
  decide

/-- C2 counterexample: in `MongoDBSQLAgent.query` the store upsert after an
execution failure is not wrapped in any `try`: when both the executor and
the store write fail, `query` raises the store error instead of returning a
failed response with the store message appended — concretely, the call
result is the raised error `"store boom"`, not an `Except.ok` response. -/
theorem query_store_failure_propagates_cex :
    (query envExecStoreFail [] "question two" true false false).1 =
      Except.error "store boom" := rfl

/-- C2 amended: the catch-and-append behaviour belongs to the
`/store-question-sql-pair` endpoint of `api.py`, not to `query`: there, when
execution raises and `store_results = true` and the store write also fails,
the storage failure is caught separately, its message is appended to the
surfaced `error_message`, and the caller still receives a response saying
the query failed (with `stored = false` and the store unchanged). -/
theorem sp_endpoint_appends_store_failure (env : Env) (store : List Doc)
    (q sql e se : String) (emb : Embedding)
    (henc : env.encode q = Except.ok emb)
    (hexec : env.execute sql = Except.error e)
    (hw : env.storeWrite = Except.error se) :
    store_question_sql_pair env store q sql true =
      ({ question := q
         sql := sql
         was_successful := false
         execution_time := none
         results := none
         result_preview := none
         error_message := some
           (e ++ " (Additionally, failed to store query: " ++ se ++ ")")
         stored := false }, store) := by
  have hsq : store_query_pair env store q sql 0 false none =
      Except.error se := by
    unfold store_query_pair
    rw [henc]
    dsimp only
    rw [hw]
  have hc := failed_to_store_in_message e se
  unfold store_question_sql_pair sp_failure_path
  rw [hexec]
  simp [hsq]
  simpa using hc

/-- C2 amended witness: concrete endpoint call in which both execution and
storage fail — the response carries the combined message and no error is
raised. -/
theorem sp_endpoint_appends_store_failure_witness :
    store_question_sql_pair envExecStoreFail [] "q" "S" true =
      ({ question := "q"
         sql := "S"
         was_successful := false
         execution_time := none
         results := none
         result_preview := none
         error_message := some
           ("exec boom" ++ " (Additionally, failed to store query: " ++
             "store boom" ++ ")")
         stored := false }, []) :=
  sp_endpoint_appends_store_failure envExecStoreFail [] "q" "S" "exec boom"
    "store boom" [1] rfl rfl rfl

/-- C6 counterexample: `find(...).limit(0)` means "no limit" in MongoDB, so
with `top_k = 0` the keyword fallback can return more than `top_k` results:
concretely one matching record is returned while the claim's bound says at
most zero. -/
theorem retrieval_fallback_cex :
    find_similar_queries envVecFail [docOrders] "find all orders" 0 =
      Except.ok [projDoc docOrders] ∧
    ¬([projDoc docOrders].length ≤ 0) := ⟨rfl, by decide⟩

/-- C6 amended: `find_similar_queries` never propagates a vector-search
backend error — when the vector search raises or returns zero results it
silently falls back to `_text_search`, which keeps the stored documents
whose question matches the `|`-joined case-insensitive keyword regex (words
of the lowered question longer than 3 characters), in store-native order —
and the result length is at most `top_k` whenever `top_k ≥ 1` (for
`top_k = 0` the store applies no limit at all). -/
theorem retrieval_fallback (env : Env) (store : List Doc) (q : String)
    (k : Nat) (emb : Embedding) (err : String)
    (henc : env.encode q = Except.ok emb)
    (hvs : env.vectorSearch emb k = Except.error err ∨
           env.vectorSearch emb k = Except.ok []) :
    find_similar_queries env store q k = Except.ok (text_search store q k) ∧
    text_search store q k = (mongoLimit k (store.filter
      (fun d => regexAltMatches (keywordsOf q) d.question))).map projDoc ∧
    (1 ≤ k → (text_search store q k).length ≤ k) := by
  refine ⟨?_, rfl, ?_⟩
  · unfold find_similar_queries
    rw [henc]
    dsimp only
    rcases hvs with h | h <;> rw [h] <;> rfl
  · intro hk
    unfold text_search
    dsimp only
    rw [List.length_map]
    exact mongoLimit_length_le k hk _

/-- C6 amended witness: concrete fallback with a raising vector index and a
positive `top_k`. -/
theorem retrieval_fallback_witness :
    find_similar_queries envVecFail [docOrders] "find all orders" 2 =
      Except.ok (text_search [docOrders] "find all orders" 2) ∧
    text_search [docOrders] "find all orders" 2 =
      (mongoLimit 2 ([docOrders].filter
        (fun d => regexAltMatches (keywordsOf "find all orders")
          d.question))).map projDoc ∧
    (1 ≤ 2 → (text_search [docOrders] "find all orders" 2).length ≤ 2) :=
  retrieval_fallback envVecFail [docOrders] "find all orders" 2 [1]
    "no index" rfl (Or.inl rfl)

/-- C10 counterexample: with every token of length ≤ 3 and `top_k = 0`, the
fallback returns every stored record (limit 0 = no limit), so "up to top_k
records" fails: one record comes back although `top_k = 0`. -/
theorem empty_keyword_fallback_cex :
    text_search [docOrders] "a bb ccc" 0 = [projDoc docOrders] ∧
    ¬([projDoc docOrders].length ≤ 0) := ⟨rfl, by decide⟩

/-- C10 amended: if every whitespace-separated token of the (lowered)
question has length 3 or less, the keyword list is empty and the joined
regex pattern is empty, which matches every stored question; the fallback
then returns the first `top_k` stored records (all of them when
`top_k = 0`) — never the empty sequence a caller might expect from zero
matching keywords, as long as the store is non-empty. -/
theorem empty_keyword_fallback (store : List Doc) (q : String) (k : Nat)
    (h : ∀ w ∈ pyWords (strLower q), w.length ≤ 3) :
    keywordsOf q = [] ∧
    text_search store q k = (mongoLimit k store).map projDoc ∧
    (store ≠ [] → text_search store q k ≠ []) := by
  have hkw : keywordsOf q = [] := by
    unfold keywordsOf
    rw [List.filter_eq_nil_iff]
    intro w hw
    have := h w hw
    simp
    omega
  have hmatch : (store.filter
      (fun d => regexAltMatches (keywordsOf q) d.question)) = store := by
    rw [hkw]
    apply List.filter_eq_self.mpr
    intro d hd
    exact regexAltMatches_nil d.question
  refine ⟨hkw, ?_, ?_⟩
  · unfold text_search
    dsimp only
    rw [hmatch]
  · intro hne hcon
    unfold text_search at hcon
    dsimp only at hcon
    rw [hmatch] at hcon
    exact mongoLimit_ne_nil k store hne (List.map_eq_nil_iff.mp hcon)

/-- C10 amended witness: a concrete all-short-token question matches the
whole store and returns a non-empty result. -/
theorem empty_keyword_fallback_witness :
    keywordsOf "a bb ccc" = [] ∧
    text_search [docOrders] "a bb ccc" 2 = (mongoLimit 2 [docOrders]).map
      projDoc ∧
    ([docOrders] ≠ [] → text_search [docOrders] "a bb ccc" 2 ≠ []) :=
  empty_keyword_fallback [docOrders] "a bb ccc" 2 (by decide)

end Agent
